import Mathlib

/-!
Shallow embedding of `public/app/features/dashboard-scene/scene/PanelMenuBehavior.tsx`.

The file under verification builds the contextual action menu of a dashboard
panel.  The entry point `panelMenuBehavior` reads the panel state, the
dashboard state and a set of capability flags, consults a few external
collaborators (the explore-URL builder, the plugin-extension registry, the
alert-rule availability check, the panel-link supplier) and assembles an
ordered, nested list of menu entries, finally storing it in the menu's state.

Modelling conventions:
* External collaborators (per the spec they are out of scope and consumed via
  their interfaces) are inputs: their responses are fields of `MenuInputs`.
  In particular `createExtensionSubMenu` (imported from the plugins feature,
  not part of this file) is an input function from the filtered extension
  list to menu items.
* The i18n function `t(key, default)` is modelled as returning the default
  English text that appears literally in the source.
* URLs computed by the routing helpers (`locationUtil.getUrlForPartial`,
  `getEditPanelUrl`) are collaborator responses, carried in `UrlInputs`.
* Click handlers are modelled by a tag (the tracking-action name the handler
  reports) stored in the item; the one handler with interesting control flow
  (the `New alert rule` handler) is additionally modelled as an explicit
  effect-trace function `newAlertRuleOnClick`.
* A `VizPanelMenu.setState` call is modelled by returning `some items`;
  returning without calling `setState` is `none`.
* The `Panel links` entry stores a `VizPanelLinksMenu` (a menu of the panel's
  links, not of `PanelMenuItem`s) in its `subMenu` field; this is the
  `linkSub` field of `MenuItem`.
-/

/-- The observable fields of a `PanelMenuItem` entry.  `onClickAction` is the
tag of the click handler attached to the entry (the tracking-action name the
handler reports), `none` when the entry has no `onClick`. -/
structure ItemData where
  text : String
  iconClassName : Option String := none
  shortcut : Option String := none
  href : Option String := none
  tooltip : Option String := none
  target : Option String := none
  tabindex : Option Int := none
  onClickAction : Option String := none
deriving DecidableEq, Repr

/-- A panel link as returned by the panel-links supplier. -/
structure LinkModel where
  title : String
  url : String
deriving DecidableEq, Repr

/-- A menu entry: its data, its submenu of further entries (`[]` when the
`subMenu` field is absent), and, for the `Panel links` entry only, the
`VizPanelLinksMenu` stored in its `subMenu` field, carrying the raw links. -/
inductive MenuItem : Type where
  | mk (data : ItemData) (sub : List MenuItem) (linkSub : Option (List LinkModel)) : MenuItem
deriving Repr

def MenuItem.data : MenuItem → ItemData
  | .mk d _ _ => d

def MenuItem.sub : MenuItem → List MenuItem
  | .mk _ s _ => s

def MenuItem.linkSub : MenuItem → Option (List LinkModel)
  | .mk _ _ l => l

/-- `itemDepthLE n i` holds when the menu tree rooted at entry `i` occupies at
most `n` nesting levels (the entry itself is one level; a links menu stored in
`linkSub` occupies one further level). -/
def itemDepthLE : Nat → MenuItem → Bool
  | 0, _ => false
  | n+1, .mk _ sub linkSub =>
      sub.all (itemDepthLE n) &&
        (match linkSub with
         | none => true
         | some _ => decide (1 ≤ n))

/-- `listDepthLE n l`: every entry of the menu list `l` fits in `n` levels. -/
def listDepthLE (n : Nat) (l : List MenuItem) : Bool :=
  l.all (itemDepthLE n)

mutual
/-- Every entry in the tree rooted at `i` (the entry itself and all entries of
nested submenus of menu items) satisfies `p` on its data. -/
def itemAll (p : ItemData → Bool) : MenuItem → Bool
  | .mk d sub _ => p d && listAll p sub
/-- `itemAll` over a list of entries. -/
def listAll (p : ItemData → Bool) : List MenuItem → Bool
  | [] => true
  | i :: rest => itemAll p i && listAll p rest
end

/-- Whether the list contains an entry (at top level) with the given text. -/
def hasEntryText (l : List MenuItem) (s : String) : Bool :=
  l.any (fun i => i.data.text == s)

/-- `panel.state.options.legend` as far as the file reads it: the
`displayMode` field plus the remaining legend fields, kept opaque. -/
structure LegendOptions where
  displayMode : String
  restLegend : List (String × String)
deriving DecidableEq, Repr

/-- `panel.state.options`: the legend (absent when the options carry none) and
the remaining option fields, kept opaque. -/
structure PanelOptions where
  legend : Option LegendOptions
  restOptions : List (String × String)
deriving DecidableEq, Repr

/-- `panel.state.fieldConfig.defaults.custom`: the `displayMode` field plus the
remaining custom fields, kept opaque. -/
structure CustomConfig where
  displayMode : Option String
  restCustom : List (String × String)
deriving DecidableEq, Repr

/-- `panel.state.fieldConfig.defaults`. -/
structure FieldConfigDefaults where
  custom : CustomConfig
  restDefaults : List (String × String)
deriving DecidableEq, Repr

/-- `panel.state.fieldConfig`. -/
structure FieldConfig where
  defaults : FieldConfigDefaults
  overrides : List (String × String)
deriving DecidableEq, Repr

/-- The part of `VizPanel` state the file reads and writes. -/
structure PanelState where
  pluginId : String
  title : String
  options : PanelOptions
  fieldConfig : FieldConfig
deriving DecidableEq, Repr

/-- The part of `DashboardScene` state the menu builder reads.  `editPanel` is
`Boolean(dashboard.state.editPanel)`, `viewPanelScene` is whether
`dashboard.state.viewPanelScene` is set, `canEditDashboard` is the result of
`dashboard.canEditDashboard()`. -/
structure DashboardState where
  isEmbedded : Bool
  editPanel : Bool
  canEditDashboard : Bool
  editable : Bool
  viewPanelScene : Bool
  isDirty : Bool
deriving DecidableEq, Repr

/-- A plugin extension as returned by the extension registry.
`extensionType` is the `type` field (compared against
`PluginExtensionTypes.link`, the string `link`). -/
structure PluginExtension where
  extensionType : String
  title : String
  description : String
deriving DecidableEq, Repr

/-- Collaborator-supplied URLs (routing helpers are out of scope per the
spec): the hrefs computed by `locationUtil.getUrlForPartial` for the view and
inspect entries and by `getEditPanelUrl` for the edit entry. -/
structure UrlInputs where
  viewPanelUrl : String
  editPanelUrl : String
  inspectDataUrl : String
  inspectQueryUrl : String
  inspectJsonUrl : String
deriving DecidableEq, Repr

/-- Everything one activation of `panelMenuBehavior` reads: panel state,
dashboard state, capability flags, and the responses of every external
collaborator. -/
structure MenuInputs where
  panel : PanelState
  dashboard : DashboardState
  /-- `isLibraryPanel(panel)` -/
  isLibraryPanel : Bool
  /-- `isRepeatCloneOrChildOf(panel)` -/
  isReadOnlyRepeat : Bool
  /-- `contextSrv.hasAccessToExplore()` -/
  hasAccessToExplore : Bool
  /-- response of `tryGetExploreUrlForPanel(panel)`; `none` models `undefined` -/
  exploreUrl : Option String
  /-- extensions returned by the plugin-extension registry for the
  `DashboardPanelMenu` extension point -/
  extensions : List PluginExtension
  /-- the external `createExtensionSubMenu` helper, applied to the filtered
  link extensions -/
  createExtensionSubMenu : List PluginExtension → List MenuItem
  /-- `canCreateAlertRule` field of the awaited
  `getCreateAlertInMenuAvailability` response -/
  canCreateAlertRule : Bool
  /-- links returned by `getScenePanelLinksSupplier(panel)?.getLinks(...)`,
  `[]` when the supplier is absent -/
  links : List LinkModel
  urls : UrlInputs

/-- The `Explore` menu item built by `getExploreMenuItem` for a given explore
URL. -/
def exploreMenuItemFor (url : String) : MenuItem :=
  .mk { text := "Explore", iconClassName := some "compass", shortcut := some "x",
        href := some url, onClickAction := some "explore" } [] none

/-- Embedding of `getExploreMenuItem`: the returned item (`none` models
`undefined`) paired with the number of calls it makes to
`tryGetExploreUrlForPanel`. -/
def getExploreMenuItem (hasAccessToExplore : Bool) (exploreUrl : Option String) :
    Option MenuItem × Nat :=
  if !hasAccessToExplore then (none, 0)
  else
    match exploreUrl with
    | none => (none, 1)
    | some url => (some (exploreMenuItemFor url), 1)

/-- The filtering of raw extensions done in `panelMenuBehavior` before they
are handed to `createExtensionSubMenu`: keep link-type extensions whose title
and description are truthy (non-empty), and take the first three. -/
def linkExtensions (extensions : List PluginExtension) : List PluginExtension :=
  (((extensions.filter (fun e => e.extensionType == "link")).filter
      (fun e => e.title != "" && e.description != ""))).take 3

/-- Embedding of `convertPieChartToTable`: set the plugin id to `table`, drop
the legend option, set `fieldConfig.defaults.custom.displayMode` to `auto`,
spreading everything else unchanged. -/
def convertPieChartToTable (p : PanelState) : PanelState :=
  { p with
    pluginId := "table",
    options := { p.options with legend := none },
    fieldConfig := { p.fieldConfig with
      defaults := { p.fieldConfig.defaults with
        custom := { p.fieldConfig.defaults.custom with
          displayMode := some "auto" } } } }

def viewItem (urls : UrlInputs) : MenuItem :=
  .mk { text := "View", iconClassName := some "eye", shortcut := some "v",
        href := some urls.viewPanelUrl, onClickAction := some "view" } [] none

def editItem (urls : UrlInputs) : MenuItem :=
  .mk { text := "Edit", iconClassName := some "edit", shortcut := some "e",
        href := some urls.editPanelUrl, onClickAction := some "edit" } [] none

def exitFullscreenItem : MenuItem :=
  .mk { text := "Exit fullscreen", iconClassName := some "arrow-left",
        onClickAction := some "view-panel-fullscreen" } [] none

def removeItem : MenuItem :=
  .mk { text := "", iconClassName := some "times",
        tooltip := some "Remove this panel", onClickAction := some "remove" } [] none

def shareItem : MenuItem :=
  .mk { text := "Share", iconClassName := some "share-alt", shortcut := some "p s",
        onClickAction := some "share" } [] none

def inspectDataItem (urls : UrlInputs) : MenuItem :=
  .mk { text := "Data", href := some urls.inspectDataUrl,
        onClickAction := some "inspect-data" } [] none

def inspectQueryItem (urls : UrlInputs) : MenuItem :=
  .mk { text := "Query", href := some urls.inspectQueryUrl,
        onClickAction := some "inspect-query" } [] none

def inspectJsonItem (urls : UrlInputs) : MenuItem :=
  .mk { text := "Panel JSON", href := some urls.inspectJsonUrl,
        onClickAction := some "inspect-json" } [] none

def inspectItem (urls : UrlInputs) : MenuItem :=
  .mk { text := "Inspect", iconClassName := some "info-circle", shortcut := some "i" }
    [inspectDataItem urls, inspectQueryItem urls, inspectJsonItem urls] none

def convertToTableItem : MenuItem :=
  .mk { text := "Convert to table", iconClassName := some "table",
        onClickAction := some "convert-to-table" } [] none

def duplicateItem : MenuItem :=
  .mk { text := "Duplicate", iconClassName := some "copy", shortcut := some "p d",
        onClickAction := some "duplicate" } [] none

def copyItem : MenuItem :=
  .mk { text := "Copy", iconClassName := some "clipboard-alt",
        onClickAction := some "copy" } [] none

def unlinkLibraryPanelItem : MenuItem :=
  .mk { text := "Unlink library panel", iconClassName := some "unlink",
        onClickAction := some "unlink-from-library" } [] none

def createLibraryPanelItem : MenuItem :=
  .mk { text := "Create library panel", iconClassName := some "library-panel",
        onClickAction := some "create-library-panel" } [] none

def panelTimeOverrideItem : MenuItem :=
  .mk { text := "Panel time override", iconClassName := some "clock-nine",
        onClickAction := some "panel-time-override" } [] none

/-- The `Panel links` entry: its `subMenu` field holds a `VizPanelLinksMenu`
built from the raw links. -/
def panelLinksItem (links : List LinkModel) : MenuItem :=
  .mk { text := "Panel links", iconClassName := some "external-link-alt" } []
    (some links)

def newAlertRuleItem : MenuItem :=
  .mk { text := "New alert rule", iconClassName := some "bell",
        onClickAction := some "create-alert-rule" } [] none

def getHelpItem : MenuItem :=
  .mk { text := "Get help", iconClassName := some "question-circle",
        href := some "https://grafana.com/docs/grafana/latest/panels-visualizations/",
        target := some "_blank" } [] none

def moreItem (sub : List MenuItem) : MenuItem :=
  .mk { text := "More...", iconClassName := some "cube", tabindex := some (-1) }
    sub none

/-- The guard under which the `Convert to table` entry is pushed:
`panel.state.pluginId === 'piechart'` and
`(panel.state.options as OptionsWithLegend)?.legend?.displayMode === 'table'`. -/
def pieChartTableGuard (p : PanelState) : Bool :=
  p.pluginId == "piechart" &&
    (match p.options.legend with
     | some l => l.displayMode == "table"
     | none => false)

/-- The `moreSubMenu` array as populated by `panelMenuBehavior`, in push
order, before the `Get help` entry is appended. -/
def moreSubMenuItems (inp : MenuInputs) : List MenuItem :=
  (if pieChartTableGuard inp.panel then [convertToTableItem] else []) ++
  (if inp.dashboard.canEditDashboard && !inp.isReadOnlyRepeat then
    [duplicateItem, copyItem] else []) ++
  (if inp.isLibraryPanel then
    (if inp.dashboard.canEditDashboard then [unlinkLibraryPanelItem] else [])
  else
    (if inp.hasAccessToExplore && !(inp.panel.pluginId == "timeseries") then
      [createLibraryPanelItem] else [])) ++
  [panelTimeOverrideItem] ++
  (if inp.links.length > 0 then [panelLinksItem inp.links] else []) ++
  (if inp.canCreateAlertRule && !inp.isReadOnlyRepeat then [newAlertRuleItem] else [])

/-- The `More...` submenu as it ends up in the menu: `moreSubMenu` with the
`Get help` entry appended when the submenu is non-empty. -/
def moreSubMenuFull (inp : MenuInputs) : List MenuItem :=
  moreSubMenuItems inp ++ [getHelpItem]

/-- The `items` array assembled by the non-embedded branch of
`panelMenuBehavior`, in final order: the top-level entries, then the contents
of `subMenu` (Share, optional Explore, Inspect, the extension entries, and the
`More...` entry). -/
def panelMenuItems (inp : MenuInputs) : List MenuItem :=
  let isEditingPanel := inp.dashboard.editPanel
  (if !isEditingPanel then [viewItem inp.urls] else []) ++
  (if inp.dashboard.canEditDashboard && inp.dashboard.editable &&
      !inp.isReadOnlyRepeat && !isEditingPanel then [editItem inp.urls] else []) ++
  (if inp.dashboard.viewPanelScene then [exitFullscreenItem] else []) ++
  (if !isEditingPanel && inp.dashboard.canEditDashboard && !inp.isReadOnlyRepeat then
    [removeItem] else []) ++
  ([shareItem] ++
   (match (getExploreMenuItem inp.hasAccessToExplore inp.exploreUrl).1 with
    | some e => [e]
    | none => []) ++
   [inspectItem inp.urls] ++
   (let ext := inp.createExtensionSubMenu (linkExtensions inp.extensions)
    if ext.length > 0 then ext else []) ++
   (let ms := moreSubMenuItems inp
    if ms.length > 0 then [moreItem (ms ++ [getHelpItem])] else []))

/-- The observable outcome of one activation: the menu state written by
`menu.setState` (`none` when `setState` is never called), and the number of
calls made to each asynchronous collaborator. -/
structure MenuResult where
  newState : Option (List MenuItem)
  exploreFetches : Nat
  alertAvailabilityChecks : Nat

/-- Embedding of `panelMenuBehavior` (the body of its `asyncFunc`): on an
embedded dashboard the menu state is set to the single Explore entry when one
is available and left untouched otherwise; on a non-embedded dashboard the
alert availability is checked and the full menu is assembled. -/
def panelMenuBehavior (inp : MenuInputs) : MenuResult :=
  let explore := getExploreMenuItem inp.hasAccessToExplore inp.exploreUrl
  if inp.dashboard.isEmbedded then
    match explore.1 with
    | some item =>
        { newState := some [item], exploreFetches := explore.2,
          alertAvailabilityChecks := 0 }
    | none =>
        { newState := none, exploreFetches := explore.2,
          alertAvailabilityChecks := 0 }
  else
    { newState := some (panelMenuItems inp), exploreFetches := explore.2,
      alertAvailabilityChecks := 1 }

/-- Outcome of `dashboard.saveAndUpdate()` as observed through the
`onSaveCompleted` and `onSaveError` callbacks. -/
inductive SaveOutcome : Type where
  | success : SaveOutcome
  | failure (message : String) : SaveOutcome
deriving DecidableEq, Repr

/-- The side effects a click handler can perform. -/
inductive Effect : Type where
  | track (action : String) : Effect
  | saveAndUpdate : Effect
  | navigateToNewAlertRule (defaults : String) (returnTo : String) : Effect
  | notifyError (title : String) (message : String) : Effect
deriving DecidableEq, Repr

/-- Embedding of the `New alert rule` entry's `onClick` handler: track the
click; when the dashboard is dirty, save and let the save outcome decide
between navigating (success, via `onSuccess`) and dispatching a
`Panel not saved` error notification (failure, via `onError`); when the
dashboard is not dirty, navigate immediately.  `ruleFormValues` is the
serialized result of `scenesPanelToRuleFormValues` and `returnTo` the current
location, both collaborator-supplied. -/
def newAlertRuleOnClick (isDirty : Bool) (ruleFormValues : String)
    (returnTo : String) (outcome : SaveOutcome) : List Effect :=
  Effect.track "create-alert-rule" ::
    (if isDirty then
      Effect.saveAndUpdate ::
        (match outcome with
         | .success => [Effect.navigateToNewAlertRule ruleFormValues returnTo]
         | .failure msg => [Effect.notifyError "Panel not saved" msg])
    else
      [Effect.navigateToNewAlertRule ruleFormValues returnTo])

/-- The label predicate of the amended C2 claim: the entry carries a
non-empty label, or it is the icon-only remove-panel entry (recognised by its
tooltip). -/
def labelOrRemoveTooltip (d : ItemData) : Bool :=
  d.text != "" || d.tooltip == some "Remove this panel"

/-! ## Concrete inputs used to evaluate the definitions -/

def samplePanel : PanelState :=
  { pluginId := "timeseries", title := "CPU usage",
    options := { legend := none, restOptions := [("tooltipMode", "single")] },
    fieldConfig :=
      { defaults :=
          { custom := { displayMode := none, restCustom := [("lineWidth", "1")] },
            restDefaults := [("unit", "short")] },
        overrides := [] } }

def sampleUrls : UrlInputs :=
  { viewPanelUrl := "/d/abc?viewPanel=panel-1", editPanelUrl := "/d/abc?editPanel=1",
    inspectDataUrl := "/d/abc?inspect=1", inspectQueryUrl := "/d/abc?inspect=1&tab=query",
    inspectJsonUrl := "/d/abc?inspect=1&tab=json" }

/-- A concrete non-embedded activation: editable dashboard, full edit rights,
one panel link, no extensions, no explore access, no alert availability. -/
def sampleInputs : MenuInputs :=
  { panel := samplePanel,
    dashboard :=
      { isEmbedded := false, editPanel := false, canEditDashboard := true,
        editable := true, viewPanelScene := false, isDirty := false },
    isLibraryPanel := false, isReadOnlyRepeat := false,
    hasAccessToExplore := false, exploreUrl := none,
    extensions := [], createExtensionSubMenu := fun _ => [],
    canCreateAlertRule := false,
    links := [{ title := "drilldown", url := "/d/other" }],
    urls := sampleUrls }


/-- `sampleInputs` on an embedded dashboard. -/
def sampleEmbeddedInputs : MenuInputs :=
  { sampleInputs with
    dashboard := { sampleInputs.dashboard with isEmbedded := true } }

/-- `sampleInputs` with the alert-availability check answering positively. -/
def sampleAlertInputs : MenuInputs :=
  { sampleInputs with canCreateAlertRule := true }

/-- A well-formed link extension. -/
def sampleExtension : PluginExtension :=
  { extensionType := "link", title := "Open in app",
    description := "Open this panel in the app" }

/-- `sampleInputs` with one link extension registered. -/
def sampleExtensionInputs : MenuInputs :=
  { sampleInputs with extensions := [sampleExtension] }

/-! ## Shared helper lemmas -/

theorem listAll_append (p : ItemData → Bool) :
    ∀ a b : List MenuItem, listAll p (a ++ b) = (listAll p a && listAll p b)
  | [], b => by simp [listAll]
  | i :: r, b => by
      simp [listAll, listAll_append p r b, Bool.and_assoc]

theorem listDepthLE_append (n : Nat) (a b : List MenuItem) :
    listDepthLE n (a ++ b) = (listDepthLE n a && listDepthLE n b) := by
  simp [listDepthLE, List.all_append]

theorem itemDepthLE_leaf (n : Nat) (d : ItemData) :
    itemDepthLE (n + 1) (.mk d [] none) = true := by
  simp [itemDepthLE]

theorem itemDepthLE_mono :
    ∀ n m : Nat, n ≤ m → ∀ i : MenuItem, itemDepthLE n i = true → itemDepthLE m i = true := by
  intro n
  induction n with
  | zero =>
    intro m _ i h
    simp [itemDepthLE] at h
  | succ n ih =>
    intro m hnm i h
    match m, hnm with
    | m + 1, hnm =>
      match i with
      | .mk d sub linkSub =>
        simp only [itemDepthLE, Bool.and_eq_true, List.all_eq_true] at h ⊢
        refine ⟨fun x hx => ih m (Nat.le_of_succ_le_succ hnm) x (h.1 x hx), ?_⟩
        cases linkSub with
        | none => simp
        | some l =>
          simp only [decide_eq_true_eq] at h ⊢
          omega

theorem moreSubMenuItems_length_pos (inp : MenuInputs) :
    0 < (moreSubMenuItems inp).length := by
  simp only [moreSubMenuItems, List.length_append, List.length_cons, List.length_nil]
  omega

theorem if_length_pos_eq (l : List MenuItem) :
    (if l.length > 0 then l else []) = l := by
  cases l <;> simp

/-- The final menu of a non-embedded activation, with the always-present
`More...` block made explicit. -/
theorem panelMenuItems_eq (inp : MenuInputs) :
    panelMenuItems inp =
      (if !inp.dashboard.editPanel then [viewItem inp.urls] else []) ++
      (if inp.dashboard.canEditDashboard && inp.dashboard.editable &&
          !inp.isReadOnlyRepeat && !inp.dashboard.editPanel then [editItem inp.urls] else []) ++
      (if inp.dashboard.viewPanelScene then [exitFullscreenItem] else []) ++
      (if !inp.dashboard.editPanel && inp.dashboard.canEditDashboard &&
          !inp.isReadOnlyRepeat then [removeItem] else []) ++
      ([shareItem] ++
       (match (getExploreMenuItem inp.hasAccessToExplore inp.exploreUrl).1 with
        | some e => [e]
        | none => []) ++
       [inspectItem inp.urls] ++
       inp.createExtensionSubMenu (linkExtensions inp.extensions) ++
       [moreItem (moreSubMenuFull inp)]) := by
  have h1 := if_length_pos_eq (inp.createExtensionSubMenu (linkExtensions inp.extensions))
  have h2 := moreSubMenuItems_length_pos inp
  simp only [panelMenuItems, moreSubMenuFull, h1]
  rw [if_pos h2]

theorem panelMenuBehavior_not_embedded (inp : MenuInputs)
    (h : inp.dashboard.isEmbedded = false) :
    (panelMenuBehavior inp).newState = some (panelMenuItems inp) := by
  simp [panelMenuBehavior, h]

theorem hasEntryText_append (a b : List MenuItem) (s : String) :
    hasEntryText (a ++ b) s = (hasEntryText a s || hasEntryText b s) := by
  simp [hasEntryText, List.any_append]

theorem hasEntryText_if_singleton (c : Bool) (i : MenuItem) (s : String) :
    hasEntryText (if c then [i] else []) s = (c && (i.data.text == s)) := by
  cases c <;> simp [hasEntryText]

theorem hasEntryText_if_pair (c : Bool) (i j : MenuItem) (s : String) :
    hasEntryText (if c then [i, j] else []) s =
      (c && (i.data.text == s || j.data.text == s)) := by
  cases c <;> simp [hasEntryText]

theorem hasEntryText_singleton (i : MenuItem) (s : String) :
    hasEntryText [i] s = (i.data.text == s) := by
  simp [hasEntryText]

theorem hasEntryText_nil (s : String) : hasEntryText [] s = false := by
  simp [hasEntryText]

theorem hasEntryText_cons (i : MenuItem) (l : List MenuItem) (s : String) :
    hasEntryText (i :: l) s = (i.data.text == s || hasEntryText l s) := by
  simp [hasEntryText]

theorem hasEntryText_ite (c : Prop) [Decidable c] (a b : List MenuItem) (s : String) :
    hasEntryText (if c then a else b) s =
      if c then hasEntryText a s else hasEntryText b s := by
  split <;> rfl

/-- The `More...` block always reaches the menu of a non-embedded activation:
`moreSubMenu` is never empty (the `Panel time override` entry is
unconditional), so the `Get help` entry and the `More...` entry are pushed. -/
theorem menu_more_block (inp : MenuInputs) (hemb : inp.dashboard.isEmbedded = false) :
    ∃ pre post, (panelMenuBehavior inp).newState =
      some (pre ++ moreItem (moreSubMenuFull inp) :: post) := by
  refine ⟨(if !inp.dashboard.editPanel then [viewItem inp.urls] else []) ++
      (if inp.dashboard.canEditDashboard && inp.dashboard.editable &&
          !inp.isReadOnlyRepeat && !inp.dashboard.editPanel then [editItem inp.urls] else []) ++
      (if inp.dashboard.viewPanelScene then [exitFullscreenItem] else []) ++
      (if !inp.dashboard.editPanel && inp.dashboard.canEditDashboard &&
          !inp.isReadOnlyRepeat then [removeItem] else []) ++
      ([shareItem] ++
       (match (getExploreMenuItem inp.hasAccessToExplore inp.exploreUrl).1 with
        | some e => [e]
        | none => []) ++
       [inspectItem inp.urls] ++
       inp.createExtensionSubMenu (linkExtensions inp.extensions)), [], ?_⟩
  rw [panelMenuBehavior_not_embedded inp hemb, panelMenuItems_eq inp]
  simp [List.append_assoc]

/-- C9: per activation, the explore-URL fetch happens once when the user has
access to Explore and never otherwise (hence at most once), and the
alert-availability check happens exactly once on non-embedded dashboards and
never on embedded ones. -/
theorem async_collaborator_call_counts (inp : MenuInputs) :
    (panelMenuBehavior inp).exploreFetches =
      (if inp.hasAccessToExplore then 1 else 0) ∧
    (panelMenuBehavior inp).exploreFetches ≤ 1 ∧
    (panelMenuBehavior inp).alertAvailabilityChecks =
      (if inp.dashboard.isEmbedded then 0 else 1) := by
  cases hacc : inp.hasAccessToExplore <;>
    cases hemb : inp.dashboard.isEmbedded <;>
      cases hurl : inp.exploreUrl <;>
        simp [panelMenuBehavior, getExploreMenuItem, hacc, hemb, hurl]

/-- C10: the menu build is a pure function of the panel state, dashboard
state, capability flags and collaborator responses: two activations with
identical inputs produce identical results (same entries, same order, same
nesting) and identical collaborator call counts. -/
theorem menu_build_deterministic (a b : MenuInputs) (h : a = b) :
    panelMenuBehavior a = panelMenuBehavior b ∧
      panelMenuItems a = panelMenuItems b := by
  subst h
  exact ⟨rfl, rfl⟩

theorem menu_build_deterministic_witness :
    sampleInputs = sampleInputs ∧
      (panelMenuBehavior sampleInputs = panelMenuBehavior sampleInputs ∧
        panelMenuItems sampleInputs = panelMenuItems sampleInputs) :=
  ⟨rfl, menu_build_deterministic sampleInputs sampleInputs rfl⟩

/-- C6: on an embedded dashboard, when the user has access to Explore and an
explore URL is obtained the menu state is set to exactly the single Explore
entry; otherwise the menu state is not modified; every state ever written is a
single Explore entry, and the alert-availability check never runs. -/
theorem embedded_menu_explore_only (inp : MenuInputs)
    (hemb : inp.dashboard.isEmbedded = true) :
    (∀ url, inp.hasAccessToExplore = true → inp.exploreUrl = some url →
      (panelMenuBehavior inp).newState = some [exploreMenuItemFor url]) ∧
    (inp.hasAccessToExplore = false ∨ inp.exploreUrl = none →
      (panelMenuBehavior inp).newState = none) ∧
    (∀ l, (panelMenuBehavior inp).newState = some l →
      ∃ url, l = [exploreMenuItemFor url] ∧
        (exploreMenuItemFor url).data.text = "Explore") := by
  refine ⟨?_, ?_, ?_⟩
  · intro url ha hu
    simp [panelMenuBehavior, getExploreMenuItem, hemb, ha, hu]
  · intro h
    rcases h with h | h
    · simp [panelMenuBehavior, getExploreMenuItem, hemb, h]
    · cases ha : inp.hasAccessToExplore <;>
        simp [panelMenuBehavior, getExploreMenuItem, hemb, ha, h]
  · intro l hl
    cases ha : inp.hasAccessToExplore <;> cases hu : inp.exploreUrl <;>
      simp [panelMenuBehavior, getExploreMenuItem, hemb, ha, hu] at hl
    case true.some url =>
      exact ⟨url, hl.symm, rfl⟩

theorem embedded_menu_explore_only_witness :
    sampleEmbeddedInputs.dashboard.isEmbedded = true ∧
      sampleEmbeddedInputs.hasAccessToExplore = false ∧
      (panelMenuBehavior sampleEmbeddedInputs).newState = none := by
  refine ⟨rfl, rfl, ?_⟩
  exact (embedded_menu_explore_only sampleEmbeddedInputs rfl).2.1 (Or.inl rfl)

/-- C5: when the alert-availability check allows rule creation and the panel
is not a read-only repeat (on a non-embedded dashboard), the menu carries a
`New alert rule` entry inside the `More...` block; its click handler saves
first when the dashboard is dirty, navigating to the new-alert-rule URL only
on save success and dispatching a `Panel not saved` error notification
(without navigating) on save failure, and navigates immediately without
saving when the dashboard is not dirty. -/
theorem new_alert_rule_entry_and_handler (inp : MenuInputs)
    (havail : inp.canCreateAlertRule = true) (hrep : inp.isReadOnlyRepeat = false)
    (hemb : inp.dashboard.isEmbedded = false)
    (rfv ret msg : String) (outcome : SaveOutcome) :
    newAlertRuleItem ∈ moreSubMenuFull inp ∧
    newAlertRuleItem.data.text = "New alert rule" ∧
    (∃ pre post, (panelMenuBehavior inp).newState =
      some (pre ++ moreItem (moreSubMenuFull inp) :: post)) ∧
    newAlertRuleOnClick true rfv ret .success =
      [.track "create-alert-rule", .saveAndUpdate,
       .navigateToNewAlertRule rfv ret] ∧
    newAlertRuleOnClick true rfv ret (.failure msg) =
      [.track "create-alert-rule", .saveAndUpdate,
       .notifyError "Panel not saved" msg] ∧
    (∀ d r, Effect.navigateToNewAlertRule d r ∉
      newAlertRuleOnClick true rfv ret (.failure msg)) ∧
    newAlertRuleOnClick false rfv ret outcome =
      [.track "create-alert-rule", .navigateToNewAlertRule rfv ret] ∧
    Effect.saveAndUpdate ∉ newAlertRuleOnClick false rfv ret outcome := by
  refine ⟨?_, rfl, menu_more_block inp hemb, rfl, rfl, ?_, rfl, ?_⟩
  · simp [moreSubMenuFull, moreSubMenuItems, havail, hrep]
  · intro d r h
    simp [newAlertRuleOnClick] at h
  · intro h
    simp [newAlertRuleOnClick] at h

theorem new_alert_rule_entry_and_handler_witness :
    sampleAlertInputs.canCreateAlertRule = true ∧
      sampleAlertInputs.isReadOnlyRepeat = false ∧
      sampleAlertInputs.dashboard.isEmbedded = false ∧
      newAlertRuleItem ∈ moreSubMenuFull sampleAlertInputs ∧
      newAlertRuleOnClick false "d" "r" SaveOutcome.success =
        [.track "create-alert-rule", .navigateToNewAlertRule "d" "r"] := by
  refine ⟨rfl, rfl, rfl, ?_, ?_⟩
  · exact (new_alert_rule_entry_and_handler sampleAlertInputs rfl rfl rfl
      "d" "r" "m" .success).1
  · exact (new_alert_rule_entry_and_handler sampleAlertInputs rfl rfl rfl
      "d" "r" "m" .success).2.2.2.2.2.2.1

/-- C7: the `Convert to table` entry is offered exactly when the panel's
plugin id is `piechart` and its legend display mode is `table`; its handler
`convertPieChartToTable` sets the plugin id to `table`, removes the legend
option and sets `fieldConfig.defaults.custom.displayMode` to `auto`, leaving
the panel title, the other options, the other custom defaults, the other
field-config defaults and the overrides unchanged. -/
theorem convert_piechart_to_table_spec (inp : MenuInputs) (p : PanelState) :
    hasEntryText (moreSubMenuFull inp) "Convert to table" =
      pieChartTableGuard inp.panel ∧
    pieChartTableGuard p =
      (p.pluginId == "piechart" &&
        (match p.options.legend with
         | some l => l.displayMode == "table"
         | none => false)) ∧
    (convertPieChartToTable p).pluginId = "table" ∧
    (convertPieChartToTable p).options.legend = none ∧
    (convertPieChartToTable p).fieldConfig.defaults.custom.displayMode = some "auto" ∧
    (convertPieChartToTable p).title = p.title ∧
    (convertPieChartToTable p).options.restOptions = p.options.restOptions ∧
    (convertPieChartToTable p).fieldConfig.defaults.custom.restCustom =
      p.fieldConfig.defaults.custom.restCustom ∧
    (convertPieChartToTable p).fieldConfig.defaults.restDefaults =
      p.fieldConfig.defaults.restDefaults ∧
    (convertPieChartToTable p).fieldConfig.overrides = p.fieldConfig.overrides := by
  refine ⟨?_, rfl, rfl, rfl, rfl, rfl, rfl, rfl, rfl, rfl⟩
  cases hpie : pieChartTableGuard inp.panel <;>
    simp [moreSubMenuFull, moreSubMenuItems, hasEntryText_append,
      hasEntryText_ite, hasEntryText_singleton, hasEntryText_cons,
      hasEntryText_nil, hpie, convertToTableItem, duplicateItem, copyItem,
      unlinkLibraryPanelItem, createLibraryPanelItem, panelTimeOverrideItem,
      panelLinksItem, newAlertRuleItem, getHelpItem, MenuItem.data]

/-- C3: on a non-embedded activation, the `Unlink library panel` entry is in
the `More...` submenu exactly when the panel is a library panel and the user
can edit the dashboard; the `Create library panel` entry exactly when the
panel is not a library panel, the user has access to Explore and the plugin id
is not `timeseries`; the two entries never appear together. -/
theorem library_panel_entries_iff (inp : MenuInputs)
    (hemb : inp.dashboard.isEmbedded = false) :
    (∃ pre post, (panelMenuBehavior inp).newState =
      some (pre ++ moreItem (moreSubMenuFull inp) :: post)) ∧
    hasEntryText (moreSubMenuFull inp) "Unlink library panel" =
      (inp.isLibraryPanel && inp.dashboard.canEditDashboard) ∧
    hasEntryText (moreSubMenuFull inp) "Create library panel" =
      (!inp.isLibraryPanel &&
        (inp.hasAccessToExplore && !(inp.panel.pluginId == "timeseries"))) ∧
    ¬(hasEntryText (moreSubMenuFull inp) "Unlink library panel" = true ∧
      hasEntryText (moreSubMenuFull inp) "Create library panel" = true) := by
  have hu : hasEntryText (moreSubMenuFull inp) "Unlink library panel" =
      (inp.isLibraryPanel && inp.dashboard.canEditDashboard) := by
    cases hlib : inp.isLibraryPanel <;>
      cases hce : inp.dashboard.canEditDashboard <;>
        simp [moreSubMenuFull, moreSubMenuItems, hasEntryText_append,
          hasEntryText_ite, hasEntryText_singleton, hasEntryText_cons,
          hasEntryText_nil, hlib, hce, convertToTableItem, duplicateItem,
          copyItem, unlinkLibraryPanelItem, createLibraryPanelItem,
          panelTimeOverrideItem, panelLinksItem, newAlertRuleItem, getHelpItem,
          MenuItem.data]
  have hc : hasEntryText (moreSubMenuFull inp) "Create library panel" =
      (!inp.isLibraryPanel &&
        (inp.hasAccessToExplore && !(inp.panel.pluginId == "timeseries"))) := by
    cases hlib : inp.isLibraryPanel <;>
      cases hacc : inp.hasAccessToExplore <;>
        cases hts : (inp.panel.pluginId == "timeseries") <;>
          simp [moreSubMenuFull, moreSubMenuItems, hasEntryText_append,
            hasEntryText_ite, hasEntryText_singleton, hasEntryText_cons,
            hasEntryText_nil, hlib, hacc, hts, convertToTableItem,
            duplicateItem, copyItem, unlinkLibraryPanelItem,
            createLibraryPanelItem, panelTimeOverrideItem, panelLinksItem,
            newAlertRuleItem, getHelpItem, MenuItem.data]
  refine ⟨menu_more_block inp hemb, hu, hc, ?_⟩
  rintro ⟨h1, h2⟩
  rw [hu] at h1
  rw [hc] at h2
  simp only [Bool.and_eq_true, Bool.not_eq_true'] at h1 h2
  rw [h1.1] at h2
  simp at h2

theorem library_panel_entries_iff_witness :
    sampleInputs.dashboard.isEmbedded = false ∧
      hasEntryText (moreSubMenuFull sampleInputs) "Unlink library panel" =
        (sampleInputs.isLibraryPanel && sampleInputs.dashboard.canEditDashboard) :=
  ⟨rfl, (library_panel_entries_iff sampleInputs rfl).2.1⟩

/-- C4: every non-embedded activation produces a menu containing a `Share`
entry and, after it, an `Inspect` entry whose submenu is exactly the `Data`,
`Query`, `Panel JSON` entries in that order. -/
theorem share_and_inspect_always_present (inp : MenuInputs)
    (hemb : inp.dashboard.isEmbedded = false) :
    ∃ pre mid post,
      (panelMenuBehavior inp).newState =
        some (pre ++ shareItem :: (mid ++ inspectItem inp.urls :: post)) ∧
      shareItem.data.text = "Share" ∧
      (inspectItem inp.urls).data.text = "Inspect" ∧
      (inspectItem inp.urls).sub =
        [inspectDataItem inp.urls, inspectQueryItem inp.urls,
         inspectJsonItem inp.urls] ∧
      (inspectDataItem inp.urls).data.text = "Data" ∧
      (inspectQueryItem inp.urls).data.text = "Query" ∧
      (inspectJsonItem inp.urls).data.text = "Panel JSON" := by
  refine ⟨(if !inp.dashboard.editPanel then [viewItem inp.urls] else []) ++
      (if inp.dashboard.canEditDashboard && inp.dashboard.editable &&
          !inp.isReadOnlyRepeat && !inp.dashboard.editPanel then [editItem inp.urls] else []) ++
      (if inp.dashboard.viewPanelScene then [exitFullscreenItem] else []) ++
      (if !inp.dashboard.editPanel && inp.dashboard.canEditDashboard &&
          !inp.isReadOnlyRepeat then [removeItem] else []),
    (match (getExploreMenuItem inp.hasAccessToExplore inp.exploreUrl).1 with
     | some e => [e]
     | none => []),
    inp.createExtensionSubMenu (linkExtensions inp.extensions) ++
      [moreItem (moreSubMenuFull inp)], ?_, rfl, rfl, rfl, rfl, rfl, rfl⟩
  rw [panelMenuBehavior_not_embedded inp hemb, panelMenuItems_eq inp]
  simp [List.append_assoc]

theorem share_and_inspect_always_present_witness :
    sampleInputs.dashboard.isEmbedded = false ∧
      ((panelMenuBehavior sampleInputs).newState).isSome = true ∧
      shareItem.data.text = "Share" := by
  refine ⟨rfl, ?_, ?_⟩
  · obtain ⟨pre, mid, post, h, -⟩ := share_and_inspect_always_present sampleInputs rfl
    simp [h]
  · obtain ⟨pre, mid, post, -, h2, -⟩ := share_and_inspect_always_present sampleInputs rfl
    exact h2

/-- C8: the extension entries offered in the menu come from at most three
plugin-supplied extensions, and every extension that survives the filtering is
of link type with a non-empty title and a non-empty description; the filtered
list is exactly what the extension-submenu helper receives. -/
theorem extension_links_filtered_and_capped (inp : MenuInputs)
    (e : PluginExtension) (he : e ∈ linkExtensions inp.extensions) :
    (linkExtensions inp.extensions).length ≤ 3 ∧
    e.extensionType = "link" ∧ e.title ≠ "" ∧ e.description ≠ "" ∧
    (∃ pre post, panelMenuItems inp =
      pre ++ (inp.createExtensionSubMenu (linkExtensions inp.extensions) ++ post)) := by
  refine ⟨List.length_take_le 3 _, ?_, ?_, ?_, ?_⟩
  · have h1 := List.mem_of_mem_take he
    have h2 := (List.mem_filter.mp (List.mem_filter.mp h1).1).2
    simpa using h2
  · have h1 := List.mem_of_mem_take he
    have h2 := (List.mem_filter.mp h1).2
    simp only [Bool.and_eq_true, bne_iff_ne] at h2
    exact h2.1
  · have h1 := List.mem_of_mem_take he
    have h2 := (List.mem_filter.mp h1).2
    simp only [Bool.and_eq_true, bne_iff_ne] at h2
    exact h2.2
  · refine ⟨(if !inp.dashboard.editPanel then [viewItem inp.urls] else []) ++
        (if inp.dashboard.canEditDashboard && inp.dashboard.editable &&
            !inp.isReadOnlyRepeat && !inp.dashboard.editPanel then [editItem inp.urls] else []) ++
        (if inp.dashboard.viewPanelScene then [exitFullscreenItem] else []) ++
        (if !inp.dashboard.editPanel && inp.dashboard.canEditDashboard &&
            !inp.isReadOnlyRepeat then [removeItem] else []) ++
        ([shareItem] ++
         (match (getExploreMenuItem inp.hasAccessToExplore inp.exploreUrl).1 with
          | some e' => [e']
          | none => []) ++
         [inspectItem inp.urls]),
      [moreItem (moreSubMenuFull inp)], ?_⟩
    rw [panelMenuItems_eq inp]
    simp [List.append_assoc]

theorem extension_links_filtered_and_capped_witness :
    sampleExtension ∈ linkExtensions sampleExtensionInputs.extensions ∧
      (linkExtensions sampleExtensionInputs.extensions).length ≤ 3 ∧
      sampleExtension.extensionType = "link" := by
  refine ⟨by decide, ?_⟩
  have h := extension_links_filtered_and_capped sampleExtensionInputs
    sampleExtension (by decide)
  exact ⟨h.1, h.2.1⟩

theorem listDepthLE_mono (n m : Nat) (h : n ≤ m) (l : List MenuItem)
    (hl : listDepthLE n l = true) : listDepthLE m l = true := by
  simp only [listDepthLE, List.all_eq_true] at hl ⊢
  intro x hx
  exact itemDepthLE_mono n m h x (hl x hx)

theorem listDepthLE_ite (n : Nat) (c : Prop) [Decidable c] (a b : List MenuItem) :
    listDepthLE n (if c then a else b) =
      if c then listDepthLE n a else listDepthLE n b := by
  split <;> rfl

theorem listDepthLE_cons (n : Nat) (i : MenuItem) (l : List MenuItem) :
    listDepthLE n (i :: l) = (itemDepthLE n i && listDepthLE n l) := by
  simp [listDepthLE]

theorem listDepthLE_nil (n : Nat) : listDepthLE n [] = true := rfl

theorem itemDepthLE_node (n : Nat) (d : ItemData) (sub : List MenuItem) :
    itemDepthLE (n+1) (.mk d sub none) = listDepthLE n sub := by
  simp [itemDepthLE, listDepthLE]

theorem itemDepthLE_two_links (d : ItemData) (ls : List LinkModel) :
    itemDepthLE 2 (.mk d [] (some ls)) = true := rfl

/-- Any non-embedded menu fits in three levels, as long as the
collaborator-built extension entries fit in two. -/
theorem panelMenuItems_depth_le_three (inp : MenuInputs)
    (hext : listDepthLE 2
      (inp.createExtensionSubMenu (linkExtensions inp.extensions)) = true) :
    listDepthLE 3 (panelMenuItems inp) = true := by
  have hext3 : listDepthLE 3
      (inp.createExtensionSubMenu (linkExtensions inp.extensions)) = true :=
    listDepthLE_mono 2 3 (by omega) _ hext
  cases hacc : inp.hasAccessToExplore <;> cases hurl : inp.exploreUrl <;>
    simp [panelMenuItems_eq, getExploreMenuItem, hacc, hurl,
      listDepthLE_append, listDepthLE_ite, listDepthLE_cons, listDepthLE_nil,
      itemDepthLE_node, itemDepthLE_two_links, hext3,
      viewItem, editItem, exitFullscreenItem, removeItem, shareItem,
      exploreMenuItemFor, inspectItem, inspectDataItem, inspectQueryItem,
      inspectJsonItem, moreItem, moreSubMenuFull, moreSubMenuItems,
      convertToTableItem, duplicateItem, copyItem, unlinkLibraryPanelItem,
      createLibraryPanelItem, panelTimeOverrideItem, panelLinksItem,
      newAlertRuleItem, getHelpItem]

/-- When the panel has no links, the non-embedded menu even fits in two
levels (under the same assumption on extension entries). -/
theorem panelMenuItems_depth_le_two (inp : MenuInputs) (hlinks : inp.links = [])
    (hext : listDepthLE 2
      (inp.createExtensionSubMenu (linkExtensions inp.extensions)) = true) :
    listDepthLE 2 (panelMenuItems inp) = true := by
  cases hacc : inp.hasAccessToExplore <;> cases hurl : inp.exploreUrl <;>
    simp [panelMenuItems_eq, getExploreMenuItem, hacc, hurl, hlinks,
      listDepthLE_append, listDepthLE_ite, listDepthLE_cons, listDepthLE_nil,
      itemDepthLE_node, hext,
      viewItem, editItem, exitFullscreenItem, removeItem, shareItem,
      exploreMenuItemFor, inspectItem, inspectDataItem, inspectQueryItem,
      inspectJsonItem, moreItem, moreSubMenuFull, moreSubMenuItems,
      convertToTableItem, duplicateItem, copyItem, unlinkLibraryPanelItem,
      createLibraryPanelItem, panelTimeOverrideItem, panelLinksItem,
      newAlertRuleItem, getHelpItem]

/-- C1 counterexample: with one panel link present, the produced menu is three
levels deep (`More...` holds the `Panel links` entry, which itself carries the
links submenu), so it is not nested at most two levels. -/
theorem menu_depth_exceeds_two_levels :
    (panelMenuBehavior sampleInputs).newState = some (panelMenuItems sampleInputs) ∧
    listDepthLE 2 (panelMenuItems sampleInputs) = false ∧
    listDepthLE 3 (panelMenuItems sampleInputs) = true := by
  refine ⟨rfl, by decide, by decide⟩

/-- C1 (amended): every menu state ever produced is nested at most three
levels (two plus the links submenu of the `Panel links` entry inside
`More...`), provided the collaborator-built extension entries are at most
two levels; with no panel links the menu is at most two levels. -/
theorem menu_depth_at_most_three_levels (inp : MenuInputs)
    (hext : listDepthLE 2
      (inp.createExtensionSubMenu (linkExtensions inp.extensions)) = true) :
    (∀ l, (panelMenuBehavior inp).newState = some l → listDepthLE 3 l = true) ∧
    (inp.links = [] → ∀ l, (panelMenuBehavior inp).newState = some l →
      listDepthLE 2 l = true) := by
  constructor
  · intro l hl
    cases hemb : inp.dashboard.isEmbedded
    case false =>
      rw [panelMenuBehavior_not_embedded inp hemb] at hl
      have h := Option.some.inj hl
      subst h
      exact panelMenuItems_depth_le_three inp hext
    case true =>
      cases hacc : inp.hasAccessToExplore <;> cases hurl : inp.exploreUrl <;>
        simp [panelMenuBehavior, getExploreMenuItem, hemb, hacc, hurl] at hl
      case true.some url =>
        subst hl
        simp [listDepthLE_cons, listDepthLE_nil, itemDepthLE_node,
          exploreMenuItemFor]
  · intro hlinks l hl
    cases hemb : inp.dashboard.isEmbedded
    case false =>
      rw [panelMenuBehavior_not_embedded inp hemb] at hl
      have h := Option.some.inj hl
      subst h
      exact panelMenuItems_depth_le_two inp hlinks hext
    case true =>
      cases hacc : inp.hasAccessToExplore <;> cases hurl : inp.exploreUrl <;>
        simp [panelMenuBehavior, getExploreMenuItem, hemb, hacc, hurl] at hl
      case true.some url =>
        subst hl
        simp [listDepthLE_cons, listDepthLE_nil, itemDepthLE_node,
          exploreMenuItemFor]

theorem menu_depth_at_most_three_levels_witness :
    listDepthLE 2
      (sampleInputs.createExtensionSubMenu (linkExtensions sampleInputs.extensions)) = true ∧
    listDepthLE 3 (panelMenuItems sampleInputs) = true := by
  refine ⟨by decide, ?_⟩
  exact (menu_depth_at_most_three_levels sampleInputs (by decide)).1
    (panelMenuItems sampleInputs) rfl

theorem itemAll_mk (p : ItemData → Bool) (d : ItemData) (sub : List MenuItem)
    (ls : Option (List LinkModel)) :
    itemAll p (.mk d sub ls) = (p d && listAll p sub) := by
  simp [itemAll]

theorem listAll_cons (p : ItemData → Bool) (i : MenuItem) (l : List MenuItem) :
    listAll p (i :: l) = (itemAll p i && listAll p l) := by
  simp [listAll]

theorem listAll_nil (p : ItemData → Bool) : listAll p [] = true := by
  simp [listAll]

theorem listAll_ite (p : ItemData → Bool) (c : Prop) [Decidable c]
    (a b : List MenuItem) :
    listAll p (if c then a else b) =
      if c then listAll p a else listAll p b := by
  split <;> rfl

theorem labelOk_viewItem (urls : UrlInputs) :
    itemAll labelOrRemoveTooltip (viewItem urls) = true := rfl

theorem labelOk_editItem (urls : UrlInputs) :
    itemAll labelOrRemoveTooltip (editItem urls) = true := rfl

theorem labelOk_exitFullscreenItem :
    itemAll labelOrRemoveTooltip exitFullscreenItem = true := rfl

theorem labelOk_removeItem :
    itemAll labelOrRemoveTooltip removeItem = true := rfl

theorem labelOk_shareItem :
    itemAll labelOrRemoveTooltip shareItem = true := rfl

theorem labelOk_exploreMenuItemFor (url : String) :
    itemAll labelOrRemoveTooltip (exploreMenuItemFor url) = true := rfl

theorem labelOk_inspectItem (urls : UrlInputs) :
    itemAll labelOrRemoveTooltip (inspectItem urls) = true := rfl

theorem labelOk_convertToTableItem :
    itemAll labelOrRemoveTooltip convertToTableItem = true := rfl

theorem labelOk_duplicateItem :
    itemAll labelOrRemoveTooltip duplicateItem = true := rfl

theorem labelOk_copyItem :
    itemAll labelOrRemoveTooltip copyItem = true := rfl

theorem labelOk_unlinkLibraryPanelItem :
    itemAll labelOrRemoveTooltip unlinkLibraryPanelItem = true := rfl

theorem labelOk_createLibraryPanelItem :
    itemAll labelOrRemoveTooltip createLibraryPanelItem = true := rfl

theorem labelOk_panelTimeOverrideItem :
    itemAll labelOrRemoveTooltip panelTimeOverrideItem = true := rfl

theorem labelOk_panelLinksItem (links : List LinkModel) :
    itemAll labelOrRemoveTooltip (panelLinksItem links) = true := rfl

theorem labelOk_newAlertRuleItem :
    itemAll labelOrRemoveTooltip newAlertRuleItem = true := rfl

theorem labelOk_getHelpItem :
    itemAll labelOrRemoveTooltip getHelpItem = true := rfl

theorem labelOk_moreItem (sub : List MenuItem) :
    itemAll labelOrRemoveTooltip (moreItem sub) =
      listAll labelOrRemoveTooltip sub := by
  simp [moreItem, itemAll_mk, labelOrRemoveTooltip]

/-- Every entry of a non-embedded menu (including nested submenu entries)
carries a non-empty label or is the remove-panel entry, provided the
collaborator-built extension entries do as well. -/
theorem panelMenuItems_labels (inp : MenuInputs)
    (hext : listAll labelOrRemoveTooltip
      (inp.createExtensionSubMenu (linkExtensions inp.extensions)) = true) :
    listAll labelOrRemoveTooltip (panelMenuItems inp) = true := by
  cases hacc : inp.hasAccessToExplore <;> cases hurl : inp.exploreUrl <;>
    simp [panelMenuItems_eq, getExploreMenuItem, hacc, hurl,
      listAll_append, listAll_ite, listAll_cons, listAll_nil,
      labelOk_viewItem, labelOk_editItem, labelOk_exitFullscreenItem,
      labelOk_removeItem, labelOk_shareItem, labelOk_exploreMenuItemFor,
      labelOk_inspectItem, labelOk_moreItem, moreSubMenuFull, moreSubMenuItems,
      labelOk_convertToTableItem, labelOk_duplicateItem, labelOk_copyItem,
      labelOk_unlinkLibraryPanelItem, labelOk_createLibraryPanelItem,
      labelOk_panelTimeOverrideItem, labelOk_panelLinksItem,
      labelOk_newAlertRuleItem, labelOk_getHelpItem, hext]

/-- C2 counterexample: with edit rights on an editable dashboard, the menu
contains the icon-only remove entry, whose `text` is the empty string, so not
every entry carries a non-empty label. -/
theorem menu_entry_with_empty_label :
    (panelMenuBehavior sampleInputs).newState = some (panelMenuItems sampleInputs) ∧
    listAll (fun d => d.text != "") (panelMenuItems sampleInputs) = false ∧
    hasEntryText (panelMenuItems sampleInputs) "" = true ∧
    removeItem.data.text = "" := by
  refine ⟨rfl, by decide, by decide, rfl⟩

/-- C2 (amended): every entry of every menu state produced carries a
non-empty label, except the icon-only remove-panel entry (recognised by its
`Remove this panel` tooltip), provided the collaborator-built extension
entries carry such labels as well. -/
theorem menu_labels_nonempty_except_remove (inp : MenuInputs)
    (hext : listAll labelOrRemoveTooltip
      (inp.createExtensionSubMenu (linkExtensions inp.extensions)) = true) :
    ∀ l, (panelMenuBehavior inp).newState = some l →
      listAll labelOrRemoveTooltip l = true := by
  intro l hl
  cases hemb : inp.dashboard.isEmbedded
  case false =>
    rw [panelMenuBehavior_not_embedded inp hemb] at hl
    have h := Option.some.inj hl
    subst h
    exact panelMenuItems_labels inp hext
  case true =>
    cases hacc : inp.hasAccessToExplore <;> cases hurl : inp.exploreUrl <;>
      simp [panelMenuBehavior, getExploreMenuItem, hemb, hacc, hurl] at hl
    case true.some url =>
      subst hl
      simp [listAll_cons, listAll_nil, labelOk_exploreMenuItemFor]

theorem menu_labels_nonempty_except_remove_witness :
    listAll labelOrRemoveTooltip
      (sampleInputs.createExtensionSubMenu (linkExtensions sampleInputs.extensions)) = true ∧
    listAll labelOrRemoveTooltip (panelMenuItems sampleInputs) = true := by
  refine ⟨by decide, ?_⟩
  exact menu_labels_nonempty_except_remove sampleInputs (by decide)
    (panelMenuItems sampleInputs) rfl
